import Mathlib

/-!
Verification development for the CMO-Demo conversational web client
(React frontend of a RAG question-answering system).

The definitions below are a shallow embedding of the client-side
orchestration code:

* `src/fastAPI/my-react-app/src/App.js` — `detectLanguage`, `handleQuery`
  (query submission pipeline, answer + TTS requests, state updates);
* `src/fastAPI/my-react-app/src/services/ApiClient.js` — request bodies
  sent to the backend (in particular `ApiClient.query`);
* `src/unnamed/part_000` — a second `ApiClient` variant with a different
  `query` signature;
* `src/unnamed/part_002` (`ChatHistory.handleTTSPlay`) and
  `src/unnamed/part_005` (`AnswerSection.handleTTSToggle`) — the global
  audio playback arbitration;
* `src/unnamed/part_007` (`QueryInput`) — streaming recording: the
  WebSocket `onmessage`/`onerror` handlers, the 20 s transcription
  timeout, silence detection, and `stopRecording`.

JavaScript is single-threaded and event-driven, so asynchronous code is
modelled as explicit state-passing: every synchronous block between two
`await` points becomes one atomic state-transformer, and interleavings of
overlapping handlers are explicit event lists folded over the state.
-/

/-- JavaScript values as they appear in the request bodies we model:
strings, `null`, and booleans.  JS `undefined` for an omitted argument is
modelled as `Option` at the call boundary (`none` = argument omitted),
because JS default parameter values apply exactly when the argument is
`undefined` — passing `null` does NOT trigger the default. -/
inductive JsVal where
  | vstr (s : String)
  | vnull
  | vbool (b : Bool)
  deriving DecidableEq, Repr

/-- JSON body of `POST /query/` as built by `ApiClient.query`
(src/fastAPI/my-react-app/src/services/ApiClient.js lines 47-53):
fields `input_text`, `model`, `enhanced_mode`, `voice_lang_pref`,
`model_key`. -/
structure QueryBody where
  input_text : String
  model : JsVal
  enhanced_mode : JsVal
  voice_lang_pref : JsVal
  model_key : JsVal
  deriving DecidableEq, Repr

namespace ApiClient

/-- Embedding of `ApiClient.query` of
`src/fastAPI/my-react-app/src/services/ApiClient.js` lines 45-64:

  async query(inputText, model = 'llama-3.3-70b-versatile',
              enhancedMode = true, voiceLangPref = 'auto',
              modelKey = null)

Only the request body construction is modelled (the network send and the
error mapping of the catch block do not affect any claim about the body).
Each optional argument is `Option JsVal`; `none` means the JS argument was
`undefined`, which is when the JS default value fires. -/
def query (inputText : String) (model enhancedMode voiceLangPref modelKey : Option JsVal) : QueryBody :=
  { input_text := inputText
    model := model.getD (JsVal.vstr "llama-3.3-70b-versatile")
    enhanced_mode := enhancedMode.getD (JsVal.vbool true)
    voice_lang_pref := voiceLangPref.getD (JsVal.vstr "auto")
    model_key := modelKey.getD JsVal.vnull }

end ApiClient

/-- JSON body of `POST /query/` as built by the `ApiClient` variant of
`src/unnamed/part_000` lines 47-52: it has no `model` field. -/
structure QueryBodyV0 where
  input_text : String
  model_key : JsVal
  enhanced_mode : JsVal
  voice_lang_pref : JsVal
  deriving DecidableEq, Repr

namespace ApiClientV0

/-- Embedding of `ApiClient.query` of `src/unnamed/part_000` lines 45-63:

  async query(inputText, modelKey, enhancedMode = true, voiceLangPref = 'auto')

Here `modelKey` is the SECOND positional parameter and is sent as the
`model_key` field of the body. -/
def query (inputText : String) (modelKey : Option JsVal) (enhancedMode voiceLangPref : Option JsVal) : QueryBodyV0 :=
  { input_text := inputText
    model_key := modelKey.getD JsVal.vnull
    enhanced_mode := enhancedMode.getD (JsVal.vbool true)
    voice_lang_pref := voiceLangPref.getD (JsVal.vstr "auto") }

end ApiClientV0

/-- The `POST /query/` body actually produced by the App.js call site
`apiClient.query(inputText, modelKey)` (src/fastAPI/my-react-app/src/App.js
line 105), composed with the `ApiClient.query` of the sibling
`src/fastAPI/my-react-app/src/services/ApiClient.js`: the stored
`modelKey` React state (a string after upload, `null` before) is passed
as the second positional argument, i.e. into the `model` parameter; the
`modelKey` parameter is left `undefined` and defaults to `null`. -/
def appQueryRequest (inputText : String) (modelKey : JsVal) : QueryBody :=
  ApiClient.query inputText (some modelKey) none none none

/-- Result of App.js `detectLanguage` (lines 76-89). -/
inductive Lang where
  | mr_hi
  | en
  | other
  | empty
  deriving DecidableEq, Repr

/-- JS `regex.test(text)` for a character-class regex: true iff some
character of the text is in the class.  Defined over the character list
of the string (structural recursion, so it evaluates by `decide`). -/
def jsAny (s : String) (p : Char → Bool) : Bool :=
  s.data.any p

/-- JS `text.trim() === ''` (equivalently `!text.trim()` for the empty
check of App.js line 92): true iff every character of the text is
whitespace.  The claims only involve ASCII whitespace, on which JS
`trim` and `Char.isWhitespace` agree. -/
def jsTrimEmpty (s : String) : Bool :=
  s.data.all Char.isWhitespace

/-- Characters matched by the regex `[ऀ-ॿ]`
(Devanagari block), App.js line 78. -/
def isDevanagariChar (c : Char) : Bool :=
  0x900 ≤ c.toNat && c.toNat ≤ 0x97F

/-- Characters matched by the regex `[A-Za-z]`, App.js line 79. -/
def isLatinChar (c : Char) : Bool :=
  (('A' ≤ c && c ≤ 'Z') || ('a' ≤ c && c ≤ 'z'))

/-- Embedding of App.js `detectLanguage` (lines 76-89). -/
def detectLanguage (text : String) : Lang :=
  if jsAny text isDevanagariChar then Lang.mr_hi
  else if jsAny text isLatinChar then Lang.en
  else if !jsTrimEmpty text then Lang.other
  else Lang.empty

/-- One entry of the chat history, as built by `handleQuery`
(App.js lines 125-130). -/
structure ChatEntry where
  user : String
  assistant : String
  model : String
  timestamp : String
  deriving DecidableEq, Repr

/-- A network request issued by `handleQuery`: either the `POST /query/`
body or the `POST /tts/` form fields (text, lang_preference). -/
inductive Request where
  | queryReq (body : QueryBody)
  | ttsReq (text : String) (langPreference : String)
  deriving DecidableEq, Repr

/-- The React state of the `App` component that `handleQuery` reads and
writes (App.js lines 15-24), plus a log of the network requests issued,
so that "no request reaches the backend" is expressible. -/
structure AppState where
  currentQuestion : String
  currentAnswer : String
  chatHistory : List ChatEntry
  audioUrl : Option String
  langWarning : String
  isLoading : Bool
  requests : List Request
  deriving DecidableEq, Repr

/-- Initial App state (App.js lines 15-24: empty strings, empty history,
null audio url, not loading). -/
def initialAppState : AppState :=
  { currentQuestion := ""
    currentAnswer := ""
    chatHistory := []
    audioUrl := none
    langWarning := ""
    isLoading := false
    requests := [] }

/-- The language warning message set by `handleQuery` (App.js line 97). -/
def langWarningMsg : String :=
  "⚠️ Please use only Marathi, Hindi, or English for your questions."

/-- A `handleQuery` invocation that reached the `await Promise.all`:
the submitted text is remembered for the continuation (it is the closure
variable `inputText` used in lines 107-135). -/
structure PendingQuery where
  inputText : String
  deriving DecidableEq, Repr

/-- Synchronous prefix of App.js `handleQuery` (lines 91-107), i.e.
everything executed before the `await Promise.all` suspension point:

* line 92: if the trimmed input is empty, return with no effect;
* line 94-95: detect language, set `currentQuestion`;
* lines 96-99: on an unsupported script, set the warning, clear the
  current answer, and return — no network request is issued;
* lines 100-106: otherwise clear the warning, set `isLoading`, and issue
  the two concurrent requests `apiClient.query(inputText, modelKey)` and
  `apiClient.generateTTS(inputText)` (TTS `lang_preference` defaults to
  "auto", ApiClient.js line 95).

Returns the updated state and `some pending` iff the invocation is now
suspended on the request pair. -/
def handleQueryPhaseA (inputText : String) (modelKey : JsVal) (st : AppState) : AppState × Option PendingQuery :=
  if jsTrimEmpty inputText then
    (st, none)
  else
    let st1 := { st with currentQuestion := inputText }
    if detectLanguage inputText = Lang.other then
      ({ st1 with langWarning := langWarningMsg, currentAnswer := "" }, none)
    else
      ({ st1 with
          langWarning := ""
          isLoading := true
          requests := st1.requests ++
            [Request.queryReq (appQueryRequest inputText modelKey),
             Request.ttsReq inputText "auto"] },
       some { inputText := inputText })

/-- Semantics of `Promise.all([textPromise, ttsPromise])` (App.js line
107): fulfills with the pair iff both fulfill; rejects with the reason of
the promise that rejects first in time.  The answer result is
`Except errMsg reply`; the TTS result is `Except errMsg (Option base64)`
(`some b` when the response carries `audio_base64`, `none` when the
response lacks it, App.js line 111).  `ttsRejectsFirst` resolves which
reason wins when both reject. -/
def promiseAllPair (answer : Except String String) (tts : Except String (Option String)) (ttsRejectsFirst : Bool) : Except String (String × Option String) :=
  match answer, tts with
  | Except.ok r, Except.ok a => Except.ok (r, a)
  | Except.error e, Except.ok _ => Except.error e
  | Except.ok _, Except.error e => Except.error e
  | Except.error e1, Except.error e2 => Except.error (if ttsRejectsFirst then e2 else e1)

/-- Continuation of App.js `handleQuery` after the `await Promise.all`
(lines 108-138), run against whatever `AppState` holds when the pair
settles:

* fulfilled (lines 108-131): set `currentAnswer` to the reply; if the TTS
  response carries `audio_base64`, decode it and store a fresh object URL
  (modelled by the `freshUrl` parameter), else set `audioUrl` to null;
  prepend the new chat entry (line 131, `[newEntry, ...prev]`);
* rejected (lines 132-135, the catch block): set `currentAnswer` to
  `"Error: " ++ message`, clear `audioUrl`, re-set `currentQuestion`;
* finally (line 137): clear `isLoading`.

`ts` stands for `new Date().toLocaleTimeString()` (line 129). -/
def handleQueryPhaseB (q : PendingQuery) (pairResult : Except String (String × Option String)) (freshUrl ts : String) (st : AppState) : AppState :=
  match pairResult with
  | Except.ok (reply, ttsAudio) =>
    let st1 := { st with currentAnswer := reply }
    let st2 :=
      match ttsAudio with
      | some _ => { st1 with audioUrl := some freshUrl }
      | none => { st1 with audioUrl := none }
    let entry : ChatEntry :=
      { user := q.inputText
        assistant := reply
        model := "llama-3.3-70b-versatile"
        timestamp := ts }
    { st2 with chatHistory := entry :: st2.chatHistory, isLoading := false }
  | Except.error msg =>
    { st with
        currentAnswer := "Error: " ++ msg
        audioUrl := none
        currentQuestion := q.inputText
        isLoading := false }

/-- One complete `handleQuery` invocation with no other invocation
overlapping it: the synchronous prefix followed, if it suspended, by the
continuation once the request pair settles with outcomes `answer` and
`tts`. -/
def handleQueryRun (inputText : String) (modelKey : JsVal) (answer : Except String String) (tts : Except String (Option String)) (ttsRejectsFirst : Bool) (freshUrl ts : String) (st : AppState) : AppState :=
  match handleQueryPhaseA inputText modelKey st with
  | (st1, none) => st1
  | (st1, some q) => handleQueryPhaseB q (promiseAllPair answer tts ttsRejectsFirst) freshUrl ts st1

/-- Two overlapping `handleQuery` invocations, q2 submitted while q1 is
still awaiting its request pair (the scenario of the spec): q1's
synchronous prefix runs, then q2's, then the two continuations run in
the network completion order.  `q1ResolvesLast = true` means q1's pair
settles after q2's.  `res1`, `res2` are the settled pair results. -/
def runTwoQueries (q1 q2 : String) (modelKey : JsVal) (res1 res2 : Except String (String × Option String)) (q1ResolvesLast : Bool) (freshUrl ts : String) (st : AppState) : AppState :=
  match handleQueryPhaseA q1 modelKey st with
  | (st1, none) =>
    match handleQueryPhaseA q2 modelKey st1 with
    | (st2, none) => st2
    | (st2, some p2) => handleQueryPhaseB p2 res2 freshUrl ts st2
  | (st1, some p1) =>
    match handleQueryPhaseA q2 modelKey st1 with
    | (st2, none) => handleQueryPhaseB p1 res1 freshUrl ts st2
    | (st2, some p2) =>
      if q1ResolvesLast then
        handleQueryPhaseB p1 res1 freshUrl ts (handleQueryPhaseB p2 res2 freshUrl ts st2)
      else
        handleQueryPhaseB p2 res2 freshUrl ts (handleQueryPhaseB p1 res1 freshUrl ts st2)

/-! ### Global audio playback arbitration

Embedding of the play-request handlers `ChatHistory.handleTTSPlay`
(src/unnamed/part_002 lines 60-127) and `AnswerSection.handleTTSToggle`
(src/unnamed/part_005 lines 42-111).  The two handlers have the same
structure; a "component" below is any owner of a possible clip (one chat
history entry, or the current-answer panel).

Both handlers begin with a synchronous
`window.dispatchEvent(new Event('stopAllAudioPlayback'))`; `dispatchEvent`
runs every registered `stopAll` listener (part_002 lines 163-180,
part_005 lines 174-191) synchronously before returning, and each listener
pauses its component's current audio element and clears the global
`window.isAnyAudioPlaying` flag.  The handler then checks the flag,
branches on its component's React bookkeeping (captured before the
dispatch — React state updates queued by the listeners are not visible to
the running handler), and either resumes a paused clip, re-pauses a
playing one, or discards the clip and suspends on
`await onGenerateTTS(...)`; when that await resolves with audio, the
continuation creates a new Audio element and calls `audio.play()` with no
further flag check or stop broadcast. -/

/-- DOM state of a component's clip: no current audio element, element
playing, or element paused. -/
inductive ClipState where
  | noClip
  | playing
  | paused
  deriving DecidableEq, Repr

/-- One playback component: its clip's DOM state, the clip position
(`currentTime`, also the `pausedAt` bookkeeping once paused), and whether
the component is suspended inside the TTS-generation await. -/
structure PlayerComp where
  clip : ClipState
  pos : Nat
  generating : Bool
  deriving DecidableEq, Repr

/-- A component with no clip and no pending generation. -/
def idleComp : PlayerComp :=
  { clip := ClipState.noClip, pos := 0, generating := false }

/-- Whole-application playback state: the components (indexed by `Nat`;
unused indices are idle) and the global `window.isAnyAudioPlaying` flag. -/
structure PlaybackSys where
  comp : Nat → PlayerComp
  anyAudioFlag : Bool

/-- Replace component `i`. -/
def updComp (s : PlaybackSys) (i : Nat) (p : PlayerComp) : PlaybackSys :=
  { s with comp := fun j => if j = i then p else s.comp j }

/-- Effect of one `stopAllAudioPlayback` listener on its component
(part_002 lines 164-171): if a current audio element exists it is paused
(position preserved) and the playing flag is cleared. -/
def pauseComp (p : PlayerComp) : PlayerComp :=
  if p.clip = ClipState.playing then { p with clip := ClipState.paused } else p

/-- Synchronous effect of dispatching the `stopAllAudioPlayback` event:
every component's listener runs, pausing any playing element.  Each
listener owning an element sets `window.isAnyAudioPlaying` to false; the
flag is true only while some component's element is playing (it is set in
`onplay` and cleared in `onpause`/`onended`/`onerror` and on unmount), so
after the broadcast it is false. -/
def dispatchStopAll (s : PlaybackSys) : PlaybackSys :=
  { comp := fun j => pauseComp (s.comp j), anyAudioFlag := false }

/-- Synchronous prefix of a play request for component `i`
(`handleTTSPlay` / `handleTTSToggle` up to the `await onGenerateTTS`):

* dispatch the stop-all broadcast (part_002 line 61, part_005 line 44);
* abort if the global playing flag is still set (line 62 / line 45);
* resume branch (part_002 lines 63-70, part_005 lines 46-54): the
  component's bookkeeping (read before the dispatch) shows a paused clip
  with a positive saved position and no generation in flight —
  `audio.play()` restarts it synchronously and `onplay` sets the flag;
* pause branch (part_002 lines 71-78, part_005 lines 55-62): the
  bookkeeping shows this component's clip playing — it is (re)paused and
  the flag cleared;
* otherwise (part_002 lines 79-92, part_005 lines 63-77): any current
  clip is discarded, its URL revoked, and the handler suspends on the
  TTS request for this component. -/
def clickStep (i : Nat) (s : PlaybackSys) : PlaybackSys :=
  let pre := s.comp i
  let s1 := dispatchStopAll s
  if s1.anyAudioFlag then s1
  else if pre.clip = ClipState.paused && decide (0 < pre.pos) && !pre.generating then
    { updComp s1 i { pre with clip := ClipState.playing } with anyAudioFlag := true }
  else if pre.clip = ClipState.playing then
    { updComp s1 i { pre with clip := ClipState.paused } with anyAudioFlag := false }
  else
    updComp s1 i { clip := ClipState.noClip, pos := 0, generating := true }

/-- Continuation of a play request for component `i` once its
`await onGenerateTTS(...)` resolves with audio (part_002 lines 93-119,
part_005 lines 78-104): a new Audio element is created and
`audio.play()` is called — with no repeated stop broadcast and no
re-check of the global flag — and `onplay` sets the flag. -/
def resolveStep (i : Nat) (s : PlaybackSys) : PlaybackSys :=
  let p := s.comp i
  if p.generating then
    { updComp s i { clip := ClipState.playing, pos := 0, generating := false }
        with anyAudioFlag := true }
  else s

/-- An atomic scheduler step of the playback system: a user play request
(its synchronous prefix) or the arrival of a TTS response. -/
inductive PlayStep where
  | click (i : Nat)
  | ttsResolved (i : Nat)
  deriving DecidableEq, Repr

/-- Apply one step. -/
def applyPlayStep (st : PlayStep) (s : PlaybackSys) : PlaybackSys :=
  match st with
  | PlayStep.click i => clickStep i s
  | PlayStep.ttsResolved i => resolveStep i s

/-- Run a sequence of steps (one possible event-loop interleaving). -/
def runPlay (steps : List PlayStep) (s : PlaybackSys) : PlaybackSys :=
  steps.foldl (fun st e => applyPlayStep e st) s

/-- Playback system with every component idle and no audio flagged. -/
def initPlaybackSys : PlaybackSys :=
  { comp := fun _ => idleComp, anyAudioFlag := false }

/-! ### Streaming recording session

Embedding of the WebSocket streaming recording of `QueryInput`
(src/unnamed/part_007): `startRecording` (lines 36-158), the
`socket.onmessage` handler (lines 90-109), `socket.onerror`
(lines 111-122), the 20-second `transcriptionTimeout` (lines 141-152) and
`stopRecording` (lines 160-187). -/

/-- The mutable session state touched by the recording handlers:

* `recorderExists`: `mediaRecorderRef.current` is set (it is assigned in
  `startRecording` line 41 and never cleared);
* `recorderActive`: `mediaRecorder.state` is not `inactive`;
* `wsOpen`: the WebSocket is open (messages are delivered only while
  open);
* `ctxOpen`: the AudioContext exists and its state is not `closed`;
* `tracksLive`: the media stream tracks have not been stopped;
* `trackStopCalls`: how many times the code has run
  `stream.getTracks().forEach(track => track.stop())` (one sweep of the
  device tracks counts as one invocation);
* `timeoutArmed`: the 20 s `transcriptionTimeout` is pending;
* `silenceArmed`: the 2 s silence timer is pending;
* `isRecording`, `isTranscribing`: the React flags;
* `inputText`: the text shown in the input field. -/
structure RecState where
  recorderExists : Bool
  recorderActive : Bool
  wsOpen : Bool
  ctxOpen : Bool
  tracksLive : Bool
  trackStopCalls : Nat
  timeoutArmed : Bool
  silenceArmed : Bool
  isRecording : Bool
  isTranscribing : Bool
  inputText : String
  deriving DecidableEq, Repr

/-- Session state right after `startRecording` succeeded and
`socket.onopen` fired (part_007 lines 36-88, 141-152): recorder created
and started, socket open, audio context open, tracks live, the 20 s
timeout armed, both flags set, no track stop yet. -/
def startedRec : RecState :=
  { recorderExists := true
    recorderActive := true
    wsOpen := true
    ctxOpen := true
    tracksLive := true
    trackStopCalls := 0
    timeoutArmed := true
    silenceArmed := false
    isRecording := true
    isTranscribing := true
    inputText := "" }

/-- Embedding of `stopRecording` (part_007 lines 160-187), statement by
statement:

* lines 161-162: clear both timers;
* lines 165-167: stop the media recorder if it exists and is active;
* lines 170-173: if the socket is open, send the end event and close it;
* lines 176-178: close the audio context if not already closed;
* lines 181-183: if the recorder ref (and hence its stream) exists, run
  `track.stop()` over all tracks — unconditionally, whether or not they
  were already stopped;
* lines 185-186: clear both React flags. -/
def stopRecording (s : RecState) : RecState :=
  let s1 := { s with timeoutArmed := false, silenceArmed := false }
  let s2 :=
    if s1.recorderExists && s1.recorderActive then
      { s1 with recorderActive := false }
    else s1
  let s3 := if s2.wsOpen then { s2 with wsOpen := false } else s2
  let s4 := if s3.ctxOpen then { s3 with ctxOpen := false } else s3
  let s5 :=
    if s4.recorderExists then
      { s4 with tracksLive := false, trackStopCalls := s4.trackStopCalls + 1 }
    else s4
  { s5 with isRecording := false, isTranscribing := false }

/-- One WebSocket JSON message: the optional `partial` field (called
`interim` here) and the optional `final` field. -/
structure WsMsg where
  interim : Option String
  final : Option String
  deriving DecidableEq, Repr

/-- Embedding of `socket.onmessage` (part_007 lines 90-109).  The handler
fires only while the socket is open.  A `partial` field replaces the
input text (line 94); a `final` field replaces the input text
(line 97), clears both React flags, stops the recorder, stops the device
tracks, closes the socket and closes the audio context (lines 98-106).
The 20 s timeout is NOT cleared here. -/
def onWsMessage (m : WsMsg) (s : RecState) : RecState :=
  if !s.wsOpen then s
  else
    let s1 :=
      match m.interim with
      | some t => { s with inputText := t }
      | none => s
    match m.final with
    | some t =>
      { s1 with
          inputText := t
          isTranscribing := false
          isRecording := false
          recorderActive := false
          tracksLive := false
          trackStopCalls := s1.trackStopCalls + 1
          wsOpen := false
          ctxOpen := false }
    | none => s1

/-- Embedding of `socket.onerror` (part_007 lines 111-122): clears both
React flags, stops the recorder, stops the device tracks, closes the
socket and the audio context.  The 20 s timeout is not cleared. -/
def onWsError (s : RecState) : RecState :=
  if !s.wsOpen then s
  else
    { s with
        isTranscribing := false
        isRecording := false
        recorderActive := false
        tracksLive := false
        trackStopCalls := s.trackStopCalls + 1
        wsOpen := false
        ctxOpen := false }

/-- Embedding of the 20-second `transcriptionTimeout` callback
(part_007 lines 141-152), which runs iff the timer is still armed when
20 s elapse: stop the recorder if still active (line 142-144), clear both
React flags, close the socket, stop the device tracks, close the audio
context. -/
def onTimeoutFire (s : RecState) : RecState :=
  if !s.timeoutArmed then s
  else
    let s1 := { s with timeoutArmed := false }
    let s2 :=
      if s1.recorderActive then { s1 with recorderActive := false } else s1
    { s2 with
        isTranscribing := false
        isRecording := false
        wsOpen := false
        tracksLive := false
        trackStopCalls := s2.trackStopCalls + 1
        ctxOpen := false }

/-- Events that can occur during the first 20 seconds of a streaming
session: a WebSocket message, a WebSocket error, a user-initiated stop
(the mic button calls `stopRecording`, part_007 lines 190-198), or the
2 s silence timer firing (its callback is `stopRecording`, line 64). -/
inductive RecEvent where
  | message (m : WsMsg)
  | wsError
  | userStop
  | silenceFire
  deriving DecidableEq, Repr

/-- Apply one recording event.  The silence timer callback runs only if
that timer is still armed. -/
def applyRecEvent (e : RecEvent) (s : RecState) : RecState :=
  match e with
  | RecEvent.message m => onWsMessage m s
  | RecEvent.wsError => onWsError s
  | RecEvent.userStop => stopRecording s
  | RecEvent.silenceFire => if s.silenceArmed then stopRecording s else s

/-- Run a sequence of recording events. -/
def runRec (evs : List RecEvent) (s : RecState) : RecState :=
  evs.foldl (fun st e => applyRecEvent e st) s

/-- A live mid-session state: like `startedRec` but with an arbitrary
track-stop count, input text, and silence-timer status, so statements
about stopping quantify over any point of a running session. -/
def liveRec (n : Nat) (t : String) (b : Bool) : RecState :=
  { startedRec with trackStopCalls := n, inputText := t, silenceArmed := b }

/-- Whether a recording event carries a terminal (final) transcription. -/
def hasFinal : RecEvent → Bool
  | RecEvent.message m => m.final.isSome
  | _ => false

/-- Whether a recording event invokes `stopRecording` and hence clears
the 20 s transcription timeout (part_007 line 161) — the only place that
timer is ever cleared. -/
def clearsRecTimer : RecEvent → Bool
  | RecEvent.userStop => true
  | RecEvent.silenceFire => true
  | _ => false

/-! ### Silence detection

Embedding of `detectSilence` (src/unnamed/part_007 lines 50-78).  Each
animation frame reads the analyser buffer (bytes, midpoint 128), computes
the average deviation `avg = sum |x - 128| / fftSize`, and:

* if `avg < 5` and no silence timer is pending, arms a 2000 ms timer
  whose callback is `stopRecording` (lines 61-66);
* if `avg >= 5`, cancels any pending silence timer (lines 67-72);
* then continues the loop with `requestAnimationFrame(detectSilence)`
  only `if (isRecording)` (lines 73-75).

That guard reads the `isRecording` binding captured by the `detectSilence`
closure.  `detectSilence` is created inside `startRecording`, which runs
from the render in which the user clicked start, where `isRecording` is
still `false` (it becomes `true` only via `setIsRecording(true)` in
`socket.onopen`, line 86, which updates the state of LATER renders, never
the captured constant).  The captured value is therefore `false` for the
whole session, which is the `capturedRec` parameter below. -/

/-- State of the silence detector: the time at which the pending 2 s
timer was armed, if any. -/
structure SilState where
  timerArmedAt : Option Nat
  deriving DecidableEq, Repr

/-- Sum of deviations from the 128 midpoint over the analyser buffer
(part_007 lines 55-58). -/
def frameDeviationSum (samples : List Nat) : Nat :=
  samples.foldl (fun acc x => acc + (if 128 ≤ x then x - 128 else 128 - x)) 0

/-- The frame counts as silence when `avg < 5` (part_007 lines 59-61);
with exact (real) division this is `sum < 5 * length` for a nonempty
buffer, and an empty buffer gives `NaN < 5 = false` in JS, matching
`0 < 0 = false` here. -/
def frameSilent (samples : List Nat) : Bool :=
  decide (frameDeviationSum samples < 5 * samples.length)

/-- The body of `detectSilence` for one frame at time `now`
(part_007 lines 61-72): arm the 2 s timer on silence if none is pending,
cancel it on sound. -/
def processFrame (now : Nat) (silent : Bool) (s : SilState) : SilState :=
  if silent then
    match s.timerArmedAt with
    | none => { timerArmedAt := some now }
    | some _ => s
  else { timerArmedAt := none }

/-- The `detectSilence` animation-frame loop over a sequence of frames
`(time, silent)`: after processing a frame it continues with the next
frame only if the captured `isRecording` value is true
(part_007 lines 73-75). -/
def detectSilenceLoop (capturedRec : Bool) (frames : List (Nat × Bool)) (s : SilState) : SilState :=
  match frames with
  | [] => s
  | (t, sil) :: rest =>
    let s1 := processFrame t sil s
    if capturedRec then detectSilenceLoop capturedRec rest s1 else s1

/-- When the pending silence timer, if any, will fire `stopRecording`
(2000 ms after being armed, part_007 lines 63-65). -/
def silenceStopAt (s : SilState) : Option Nat :=
  s.timerArmedAt.map (fun t => t + 2000)

/-! ## Helper lemmas -/

/-- A `stopAllAudioPlayback` listener never leaves a clip playing. -/
theorem pauseComp_not_playing (p : PlayerComp) :
    (pauseComp p).clip ≠ ClipState.playing := by
  unfold pauseComp
  split
  · simp
  · assumption

/-- `socket.onmessage` never touches the 20 s transcription timeout. -/
theorem onWsMessage_timeoutArmed (m : WsMsg) (s : RecState) :
    (onWsMessage m s).timeoutArmed = s.timeoutArmed := by
  unfold onWsMessage
  cases m.interim <;> cases m.final <;> by_cases h : s.wsOpen <;> simp [h]

/-- `socket.onerror` never touches the 20 s transcription timeout. -/
theorem onWsError_timeoutArmed (s : RecState) :
    (onWsError s).timeoutArmed = s.timeoutArmed := by
  unfold onWsError
  by_cases h : s.wsOpen <;> simp [h]

/-- Only `stopRecording` (user stop or silence-timer fire) clears the
20 s transcription timeout: all other events preserve it. -/
theorem runRec_timeoutArmed (evs : List RecEvent) (s : RecState)
    (h : s.timeoutArmed = true)
    (hstop : evs.all (fun e => !clearsRecTimer e) = true) :
    (runRec evs s).timeoutArmed = true := by
  induction evs generalizing s with
  | nil => exact h
  | cons e rest ih =>
    rw [List.all_cons, Bool.and_eq_true] at hstop
    cases e with
    | message m =>
      exact ih (onWsMessage m s) ((onWsMessage_timeoutArmed m s).trans h) hstop.2
    | wsError =>
      exact ih (onWsError s) ((onWsError_timeoutArmed s).trans h) hstop.2
    | userStop => simp [clearsRecTimer] at hstop
    | silenceFire => simp [clearsRecTimer] at hstop

/-- Once the 20 s timeout fires (timer still armed), the session is
fully finalized. -/
theorem onTimeoutFire_finalizes (s : RecState) (h : s.timeoutArmed = true) :
    (onTimeoutFire s).recorderActive = false ∧
    (onTimeoutFire s).wsOpen = false ∧
    (onTimeoutFire s).tracksLive = false ∧
    (onTimeoutFire s).isRecording = false ∧
    (onTimeoutFire s).isTranscribing = false ∧
    (onTimeoutFire s).ctxOpen = false := by
  unfold onTimeoutFire
  by_cases hr : s.recorderActive <;> simp [h, hr]

/-- An interim-only message just replaces the displayed text (socket
still open afterwards). -/
theorem onWsMessage_interim (q : String) (s : RecState) (h : s.wsOpen = true) :
    onWsMessage { interim := some q, final := none } s = { s with inputText := q } := by
  unfold onWsMessage
  simp [h]

/-! ## Claims -/

/-- Claim C10: for every input string whose trimmed form is empty,
`handleQuery` returns immediately (App.js line 92) without issuing any
network request and without modifying any application state:
`currentQuestion`, `currentAnswer`, `chatHistory`, `audioUrl`,
`langWarning`, `isLoading` and the request log are all unchanged —
whatever the outcomes of the (never issued) requests would have been. -/
theorem c10_empty_input_noop (s : String) (mk : JsVal)
    (ans : Except String String) (tts : Except String (Option String))
    (b : Bool) (u ts : String) (st : AppState) (h : jsTrimEmpty s = true) :
    handleQueryRun s mk ans tts b u ts st = st := by
  simp [handleQueryRun, handleQueryPhaseA, h]

/-- Witness for C10 at the concrete input of two spaces. -/
theorem c10_empty_input_noop_witness :
    jsTrimEmpty "  " = true ∧
    handleQueryRun "  " JsVal.vnull (Except.ok "r") (Except.ok none)
      false "u" "t" initialAppState = initialAppState :=
  ⟨by decide, c10_empty_input_noop "  " JsVal.vnull (Except.ok "r")
    (Except.ok none) false "u" "t" initialAppState (by decide)⟩

/-- Claim C3 (code bug, evaluated): after an upload stored
`model_key = "KB-1"`, the App.js call site `apiClient.query(inputText,
modelKey)` composed with the `ApiClient.query` signature of
src/fastAPI/my-react-app/src/services/ApiClient.js routes the stored key
into the `model` field of the `POST /query/` body and sends
`model_key: null` — the claim holds only for the superseded
`ApiClient` variant of src/unnamed/part_000, whose `query` takes
`modelKey` as the second parameter. -/
theorem c3_model_key_misrouted :
    (appQueryRequest "What is the scheme?" (JsVal.vstr "KB-1")).model_key = JsVal.vnull
    ∧ (appQueryRequest "What is the scheme?" (JsVal.vstr "KB-1")).model = JsVal.vstr "KB-1"
    ∧ (handleQueryRun "What is the scheme?" (JsVal.vstr "KB-1") (Except.ok "r")
        (Except.ok none) false "u" "t" initialAppState).requests
      = [Request.queryReq
          { input_text := "What is the scheme?"
            model := JsVal.vstr "KB-1"
            enhanced_mode := JsVal.vbool true
            voice_lang_pref := JsVal.vstr "auto"
            model_key := JsVal.vnull },
         Request.ttsReq "What is the scheme?" "auto"]
    ∧ (ApiClientV0.query "What is the scheme?" (some (JsVal.vstr "KB-1")) none none).model_key
      = JsVal.vstr "KB-1" := by
  decide

/-- Claim C9 (code bug, evaluated): the `detectSilence` loop guard
captures `isRecording = false` from the render that started the
recording, so only the first animation frame is ever processed.  With a
silent first frame at t = 0 ms and a loud frame at t = 16 ms (well inside
the 2 s window), the pending silence timer is NOT cancelled and
`stopRecording` still fires at t = 2000 ms; the intended loop (captured
guard true) would have cancelled it.  The last two conjuncts check the
amplitude threshold on concrete analyser buffers (all-128 bytes is
silence, all-168 bytes is sound). -/
theorem c9_stale_silence_guard :
    (detectSilenceLoop false [(0, true), (16, false)]
        { timerArmedAt := none }).timerArmedAt = some 0
    ∧ silenceStopAt (detectSilenceLoop false [(0, true), (16, false)]
        { timerArmedAt := none }) = some 2000
    ∧ (detectSilenceLoop true [(0, true), (16, false)]
        { timerArmedAt := none }).timerArmedAt = none
    ∧ frameSilent (List.replicate 8 128) = true
    ∧ frameSilent (List.replicate 8 168) = false := by
  decide

/-- Claim C8: while the socket is open, every received partial result
entirely replaces the displayed input text (never appended), and after
any sequence of partials followed by the final message the displayed
text equals the final transcription exactly. -/
theorem c8_partial_replaces_then_final (ps : List String) (f p : String)
    (s : RecState) (h : s.wsOpen = true) :
    (onWsMessage { interim := some p, final := none } s).inputText = p
    ∧ (runRec (ps.map (fun q => RecEvent.message { interim := some q, final := none })
          ++ [RecEvent.message { interim := none, final := some f }]) s).inputText = f := by
  constructor
  · rw [onWsMessage_interim p s h]
  · induction ps generalizing s with
    | nil =>
      simp only [List.map_nil, List.nil_append, runRec, List.foldl_cons, List.foldl_nil,
        applyRecEvent]
      unfold onWsMessage
      simp [h]
    | cons q rest ih =>
      simp only [List.map_cons, List.cons_append, runRec, List.foldl_cons, applyRecEvent]
      have hq := onWsMessage_interim q s h
      rw [hq]
      exact ih { s with inputText := q } h

/-- Witness for C8: partials "न" then "नमस्" followed by final "नमस्ते"
leave the field showing exactly "नमस्ते". -/
theorem c8_partial_replaces_then_final_witness :
    startedRec.wsOpen = true
    ∧ ((onWsMessage { interim := some "न", final := none } startedRec).inputText = "न"
    ∧ (runRec (["न", "नमस्"].map (fun q => RecEvent.message { interim := some q, final := none })
          ++ [RecEvent.message { interim := none, final := some "नमस्ते" }])
        startedRec).inputText = "नमस्ते") :=
  ⟨rfl, c8_partial_replaces_then_final ["न", "नमस्"] "नमस्ते" "न" startedRec rfl⟩

/-- Claim C7: a streaming session in which no event invoking
`stopRecording` occurred and no terminal (final) transcription arrived
still has the 20 s `transcriptionTimeout` armed when 20 seconds elapse,
and its callback then forcibly finalizes the session: recorder stopped,
WebSocket closed, media tracks stopped, audio context closed, and the
recording/transcribing flags cleared. -/
theorem c7_timeout_finalizes (evs : List RecEvent)
    (hstop : evs.all (fun e => !clearsRecTimer e) = true)
    (_hfin : evs.all (fun e => !hasFinal e) = true) :
    (runRec evs startedRec).timeoutArmed = true
    ∧ (onTimeoutFire (runRec evs startedRec)).recorderActive = false
    ∧ (onTimeoutFire (runRec evs startedRec)).wsOpen = false
    ∧ (onTimeoutFire (runRec evs startedRec)).tracksLive = false
    ∧ (onTimeoutFire (runRec evs startedRec)).isRecording = false
    ∧ (onTimeoutFire (runRec evs startedRec)).isTranscribing = false
    ∧ (onTimeoutFire (runRec evs startedRec)).ctxOpen = false := by
  have harm : (runRec evs startedRec).timeoutArmed = true :=
    runRec_timeoutArmed evs startedRec rfl hstop
  have hfin6 := onTimeoutFire_finalizes (runRec evs startedRec) harm
  exact ⟨harm, hfin6.1, hfin6.2.1, hfin6.2.2.1, hfin6.2.2.2.1, hfin6.2.2.2.2.1,
    hfin6.2.2.2.2.2⟩

/-- Witness for C7: a session that received one partial and then a
WebSocket error, but no final and no stop, is finalized by the 20 s
timeout. -/
theorem c7_timeout_finalizes_witness :
    ([RecEvent.message { interim := some "न", final := none },
      RecEvent.wsError].all (fun e => !clearsRecTimer e) = true)
    ∧ ([RecEvent.message { interim := some "न", final := none },
        RecEvent.wsError].all (fun e => !hasFinal e) = true)
    ∧ (runRec [RecEvent.message { interim := some "न", final := none },
        RecEvent.wsError] startedRec).timeoutArmed = true
    ∧ (onTimeoutFire (runRec [RecEvent.message { interim := some "न", final := none },
        RecEvent.wsError] startedRec)).tracksLive = false :=
  ⟨by decide, by decide,
    (c7_timeout_finalizes [RecEvent.message { interim := some "न", final := none },
      RecEvent.wsError] (by decide) (by decide)).1,
    (c7_timeout_finalizes [RecEvent.message { interim := some "न", final := none },
      RecEvent.wsError] (by decide) (by decide)).2.2.2.1⟩

/-- Claim C6 counterexample: stopping twice in a row from a live session
invokes the device-track stop sweep TWICE, not exactly once — the second
`stopRecording` still reaches part_007 lines 181-183, because
`mediaRecorderRef.current` is never cleared and the track sweep is not
guarded by recording state. -/
theorem c6_counterexample :
    (stopRecording (stopRecording startedRec)).trackStopCalls = 2
    ∧ ¬ (stopRecording (stopRecording startedRec)).trackStopCalls = 1 := by
  decide

/-- Claim C6 as amended: from any live session state (`liveRec`), every
exit path — user/explicit `stopRecording`, the 20 s timeout callback, the
WebSocket error handler, and arrival of the final transcription — stops
the media tracks and closes the audio context, and clears the flags on
the stop path; and a second consecutive `stopRecording` leaves the whole
session state unchanged EXCEPT that it redundantly re-invokes the
device-track stop on the already-stopped tracks (the invocation count is
once per call, not once per session; re-stopping an ended track is a
device-level no-op). -/
theorem c6_release_on_all_exits (n : Nat) (t f : String) (b : Bool) :
    ((stopRecording (liveRec n t b)).tracksLive = false
      ∧ (stopRecording (liveRec n t b)).ctxOpen = false
      ∧ (stopRecording (liveRec n t b)).isRecording = false
      ∧ (stopRecording (liveRec n t b)).isTranscribing = false)
    ∧ ((onTimeoutFire (liveRec n t b)).tracksLive = false
      ∧ (onTimeoutFire (liveRec n t b)).ctxOpen = false)
    ∧ ((onWsError (liveRec n t b)).tracksLive = false
      ∧ (onWsError (liveRec n t b)).ctxOpen = false)
    ∧ ((onWsMessage { interim := none, final := some f } (liveRec n t b)).tracksLive = false
      ∧ (onWsMessage { interim := none, final := some f } (liveRec n t b)).ctxOpen = false)
    ∧ stopRecording (stopRecording (liveRec n t b))
        = { stopRecording (liveRec n t b) with trackStopCalls := n + 2 } := by
  refine ⟨⟨?_, ?_, ?_, ?_⟩, ⟨?_, ?_⟩, ⟨?_, ?_⟩, ⟨?_, ?_⟩, ?_⟩ <;>
    simp [stopRecording, onTimeoutFire, onWsError, onWsMessage, liveRec, startedRec]

/-- Claim C1 counterexample: q1 = "first question" is submitted, then
q2 = "second question" while q1's request pair is still pending; both
pairs fulfil, q2's first and q1's last.  `handleQuery` has no query-id
guard, so q1's continuation overwrites the current answer: the UI ends
up showing q1's reply ("reply one"), which the claim says can never
happen. -/
theorem c1_counterexample :
    (runTwoQueries "first question" "second question" JsVal.vnull
        (Except.ok ("reply one", none)) (Except.ok ("reply two", none))
        true "blob:u1" "12:00:00" initialAppState).currentAnswer = "reply one"
    ∧ "reply one" ≠ "reply two" := by
  decide

/-- Claim C1 as amended: with two overlapping submissions q1 then q2
(both passing the script gate), the final `currentAnswer` reflects the
reply of whichever submission's request pair resolves LAST
(last-response-wins, not last-submission-wins): it is q2's reply exactly
when q2's pair settles after q1's, and q1's reply when q1's pair settles
after q2's. -/
theorem c1_last_response_wins (q1 q2 r1 r2 : String) (a1 a2 : Option String)
    (mk : JsVal) (u ts : String) (st : AppState)
    (h1t : jsTrimEmpty q1 = false) (h1l : detectLanguage q1 ≠ Lang.other)
    (h2t : jsTrimEmpty q2 = false) (h2l : detectLanguage q2 ≠ Lang.other) :
    (runTwoQueries q1 q2 mk (Except.ok (r1, a1)) (Except.ok (r2, a2))
        true u ts st).currentAnswer = r1
    ∧ (runTwoQueries q1 q2 mk (Except.ok (r1, a1)) (Except.ok (r2, a2))
        false u ts st).currentAnswer = r2 := by
  simp only [runTwoQueries, handleQueryPhaseA, h1t, h1l, h2t, h2l,
    Bool.false_eq_true, if_false, if_neg h1l, if_neg h2l, handleQueryPhaseB]
  cases a1 <;> cases a2 <;> simp

/-- Witness for the amended C1 at concrete English questions. -/
theorem c1_last_response_wins_witness :
    jsTrimEmpty "how" = false ∧ detectLanguage "how" ≠ Lang.other
    ∧ jsTrimEmpty "why" = false ∧ detectLanguage "why" ≠ Lang.other
    ∧ ((runTwoQueries "how" "why" JsVal.vnull (Except.ok ("r1", none))
          (Except.ok ("r2", none)) true "u" "t" initialAppState).currentAnswer = "r1"
      ∧ (runTwoQueries "how" "why" JsVal.vnull (Except.ok ("r1", none))
          (Except.ok ("r2", none)) false "u" "t" initialAppState).currentAnswer = "r2") :=
  ⟨by decide, by decide, by decide, by decide,
    c1_last_response_wins "how" "why" "r1" "r2" none none JsVal.vnull "u" "t"
      initialAppState (by decide) (by decide) (by decide) (by decide)⟩

/-- Claim C2 counterexample: the answer request succeeds with reply
"the reply" while the TTS request rejects; because `handleQuery` awaits
both through `Promise.all` (App.js line 107), the rejection reaches the
catch block and the displayed current answer becomes the error message —
not the successful reply.  The TTS failure DOES replace the answer text. -/
theorem c2_counterexample :
    (handleQueryRun "hello" JsVal.vnull (Except.ok "the reply")
        (Except.error "TTS generation failed") true "u" "t"
        initialAppState).currentAnswer = "Error: TTS generation failed"
    ∧ (handleQueryRun "hello" JsVal.vnull (Except.ok "the reply")
        (Except.error "TTS generation failed") true "u" "t"
        initialAppState).currentAnswer ≠ "the reply" := by
  decide

/-- Claim C2 as amended: the two requests are awaited jointly through
`Promise.all`, so a TTS REJECTION is not isolated — it sends execution to
the catch block, which replaces the current answer with `"Error: " ++
message` and clears the audio.  The answer displays with audio absent
only when the TTS call resolves successfully but without an
`audio_base64` payload. -/
theorem c2_tts_failure_not_isolated (q r e : String) (mk : JsVal) (b : Bool)
    (u ts : String) (st : AppState)
    (ht : jsTrimEmpty q = false) (hl : detectLanguage q ≠ Lang.other) :
    ((handleQueryRun q mk (Except.ok r) (Except.error e) b u ts st).currentAnswer
        = "Error: " ++ e
      ∧ (handleQueryRun q mk (Except.ok r) (Except.error e) b u ts st).audioUrl = none)
    ∧ ((handleQueryRun q mk (Except.ok r) (Except.ok none) b u ts st).currentAnswer = r
      ∧ (handleQueryRun q mk (Except.ok r) (Except.ok none) b u ts st).audioUrl = none) := by
  simp only [handleQueryRun, handleQueryPhaseA, ht, Bool.false_eq_true, if_false,
    if_neg hl, promiseAllPair, handleQueryPhaseB]
  simp

/-- Witness for the amended C2 at a concrete query. -/
theorem c2_tts_failure_not_isolated_witness :
    jsTrimEmpty "hello" = false ∧ detectLanguage "hello" ≠ Lang.other
    ∧ (((handleQueryRun "hello" JsVal.vnull (Except.ok "the reply")
          (Except.error "TTS generation failed") true "u" "t"
          initialAppState).currentAnswer = "Error: " ++ "TTS generation failed"
      ∧ (handleQueryRun "hello" JsVal.vnull (Except.ok "the reply")
          (Except.error "TTS generation failed") true "u" "t"
          initialAppState).audioUrl = none)
    ∧ ((handleQueryRun "hello" JsVal.vnull (Except.ok "the reply")
          (Except.ok none) true "u" "t" initialAppState).currentAnswer = "the reply"
      ∧ (handleQueryRun "hello" JsVal.vnull (Except.ok "the reply")
          (Except.ok none) true "u" "t" initialAppState).audioUrl = none)) :=
  ⟨by decide, by decide,
    c2_tts_failure_not_isolated "hello" "the reply" "TTS generation failed"
      JsVal.vnull true "u" "t" initialAppState (by decide) (by decide)⟩

/-- Claim C5 counterexample: the text "नд" contains the Cyrillic
character д, which is outside both supported scripts, yet `handleQuery`
ACCEPTS it and submits it to the backend — `detectLanguage` tests only
whether SOME character is Devanagari (or Latin), never whether all
characters are supported, so the Devanagari न makes the whole text pass
with no warning and both network requests issued. -/
theorem c5_counterexample :
    jsAny "नд" (fun c => !(isDevanagariChar c || isLatinChar c)) = true
    ∧ (handleQueryRun "नд" JsVal.vnull (Except.ok "r") (Except.ok none)
        true "u" "t" initialAppState).langWarning = ""
    ∧ (handleQueryRun "नд" JsVal.vnull (Except.ok "r") (Except.ok none)
        true "u" "t" initialAppState).requests
      = [Request.queryReq (appQueryRequest "नд" JsVal.vnull),
         Request.ttsReq "नд" "auto"] := by
  decide

/-- Claim C5 as amended: the local script gate rejects a non-blank text
(with the warning, and with no request reaching the backend) exactly when
it contains NO Devanagari character and NO Latin letter: text with at
least one Devanagari character is accepted and submitted, text with no
Devanagari but at least one Latin letter is likewise accepted and
submitted — in both cases even when the text also contains characters
outside the supported scripts — and otherwise the text is rejected.  In
particular text of only Devanagari characters is accepted, and
pure-Cyrillic text is rejected locally. -/
theorem c5_script_gate (t : String) (mk : JsVal) (st : AppState)
    (ht : jsTrimEmpty t = false) :
    (jsAny t isDevanagariChar = true →
      (handleQueryPhaseA t mk st).2 = some { inputText := t }
      ∧ (handleQueryPhaseA t mk st).1.requests
          = st.requests ++ [Request.queryReq (appQueryRequest t mk),
              Request.ttsReq t "auto"]
      ∧ (handleQueryPhaseA t mk st).1.langWarning = "")
    ∧ (jsAny t isDevanagariChar = false → jsAny t isLatinChar = true →
      (handleQueryPhaseA t mk st).2 = some { inputText := t }
      ∧ (handleQueryPhaseA t mk st).1.requests
          = st.requests ++ [Request.queryReq (appQueryRequest t mk),
              Request.ttsReq t "auto"]
      ∧ (handleQueryPhaseA t mk st).1.langWarning = "")
    ∧ (jsAny t isDevanagariChar = false → jsAny t isLatinChar = false →
      (handleQueryPhaseA t mk st).2 = none
      ∧ (handleQueryPhaseA t mk st).1.requests = st.requests
      ∧ (handleQueryPhaseA t mk st).1.langWarning = langWarningMsg) := by
  refine ⟨?_, ?_, ?_⟩
  · intro hdev
    have hlang : detectLanguage t = Lang.mr_hi := by
      simp [detectLanguage, hdev]
    simp [handleQueryPhaseA, ht, hlang]
  · intro hdev hlat
    have hlang : detectLanguage t = Lang.en := by
      simp [detectLanguage, hdev, hlat]
    simp [handleQueryPhaseA, ht, hlang]
  · intro hdev hlat
    have hlang : detectLanguage t = Lang.other := by
      simp [detectLanguage, hdev, hlat, ht]
    simp [handleQueryPhaseA, ht, hlang]

/-- Witness for the amended C5: only-Devanagari "नमस्ते" is accepted and
submitted; Latin-only "hello" is accepted and submitted; pure-Cyrillic
"привет" is rejected with the warning and no request. -/
theorem c5_script_gate_witness :
    jsTrimEmpty "नमस्ते" = false ∧ jsAny "नमस्ते" isDevanagariChar = true
    ∧ jsTrimEmpty "hello" = false ∧ jsAny "hello" isDevanagariChar = false
    ∧ jsAny "hello" isLatinChar = true
    ∧ jsTrimEmpty "привет" = false ∧ jsAny "привет" isDevanagariChar = false
    ∧ jsAny "привет" isLatinChar = false
    ∧ ((handleQueryPhaseA "नमस्ते" JsVal.vnull initialAppState).2
        = some { inputText := "नमस्ते" }
      ∧ (handleQueryPhaseA "नमस्ते" JsVal.vnull initialAppState).1.requests
        = initialAppState.requests
          ++ [Request.queryReq (appQueryRequest "नमस्ते" JsVal.vnull),
              Request.ttsReq "नमस्ते" "auto"]
      ∧ (handleQueryPhaseA "नमस्ते" JsVal.vnull initialAppState).1.langWarning = "")
    ∧ ((handleQueryPhaseA "hello" JsVal.vnull initialAppState).2
        = some { inputText := "hello" }
      ∧ (handleQueryPhaseA "hello" JsVal.vnull initialAppState).1.requests
        = initialAppState.requests
          ++ [Request.queryReq (appQueryRequest "hello" JsVal.vnull),
              Request.ttsReq "hello" "auto"]
      ∧ (handleQueryPhaseA "hello" JsVal.vnull initialAppState).1.langWarning = "")
    ∧ ((handleQueryPhaseA "привет" JsVal.vnull initialAppState).2 = none
      ∧ (handleQueryPhaseA "привет" JsVal.vnull initialAppState).1.requests
        = initialAppState.requests
      ∧ (handleQueryPhaseA "привет" JsVal.vnull initialAppState).1.langWarning
        = langWarningMsg) :=
  ⟨by decide, by decide, by decide, by decide, by decide, by decide, by decide,
    by decide,
    (c5_script_gate "नमस्ते" JsVal.vnull initialAppState (by decide)).1 (by decide),
    (c5_script_gate "hello" JsVal.vnull initialAppState (by decide)).2.1
      (by decide) (by decide),
    (c5_script_gate "привет" JsVal.vnull initialAppState (by decide)).2.2
      (by decide) (by decide)⟩

/-- Claim C4 counterexample: two components (two chat entries, or a chat
entry and the answer panel) each receive a play request while neither is
yet playing; both suspend on their TTS generation, and when the two
responses arrive, each continuation calls `audio.play()` with no further
stop broadcast or flag check — both clips end up in Playing state at the
same instant, violating the application-wide at-most-one-playing
invariant. -/
theorem c4_counterexample :
    ((runPlay [PlayStep.click 0, PlayStep.click 1,
        PlayStep.ttsResolved 0, PlayStep.ttsResolved 1]
        initPlaybackSys).comp 0).clip = ClipState.playing
    ∧ ((runPlay [PlayStep.click 0, PlayStep.click 1,
        PlayStep.ttsResolved 0, PlayStep.ttsResolved 1]
        initPlaybackSys).comp 1).clip = ClipState.playing := by
  decide

/-- Claim C4 as amended: whenever a play request is issued for component
`i`, the synchronous `stopAllAudioPlayback` broadcast at the top of the
handler pauses every playing clip before the handler proceeds, so
immediately after the request's synchronous prefix no OTHER component's
clip is playing — in particular a clip playing when the request was
issued is paused before the requested clip ever starts.  (The global
at-most-one-playing invariant itself does not hold across the
asynchronous TTS-generation gap, per the counterexample.) -/
theorem c4_stop_broadcast_pauses_others (s : PlaybackSys) (i j : Nat)
    (h : j ≠ i) :
    ((clickStep i s).comp j).clip ≠ ClipState.playing := by
  unfold clickStep
  simp only [dispatchStopAll]
  split
  · exact pauseComp_not_playing (s.comp j)
  · split
    · simp [updComp, h]
      exact pauseComp_not_playing (s.comp j)
    · split
      · simp [updComp, h]
        exact pauseComp_not_playing (s.comp j)
      · simp [updComp, h]
        exact pauseComp_not_playing (s.comp j)

/-- Witness for the amended C4: component 1 is playing; a play request
for component 0 pauses it during the synchronous prefix. -/
theorem c4_stop_broadcast_pauses_others_witness :
    (1 : Nat) ≠ 0
    ∧ ((clickStep 0 (updComp initPlaybackSys 1
        { clip := ClipState.playing, pos := 3, generating := false })).comp 1).clip
      ≠ ClipState.playing :=
  ⟨by decide,
    c4_stop_broadcast_pauses_others
      (updComp initPlaybackSys 1 { clip := ClipState.playing, pos := 3, generating := false })
      0 1 (by decide)⟩
